import Mathlib

/-!
Verification of the HeartMuLa RunPod music-generation client/worker protocol.

Shallow embedding of `src/runpod/handler.py` (worker-side handler) and
`src/runpod/client.py` (HeartMuLaClient). Bytes are modelled as `Nat` values
below 256, Python `str` as `String`, Python dicts with optional keys as
structures of `Option` fields, exceptions as explicit error constructors, and
the two effectful collaborators (the generation pipeline and the filesystem
write) as explicit oracle parameters.
-/

namespace HeartMuLa

/-! ## Base64 (Python `base64.b64encode` / `base64.b64decode`)

The worker encodes the generated mp3 bytes with `base64.b64encode` and the
client decodes with `base64.b64decode` (standard RFC 4648 alphabet with `=`
padding). -/

/-- The standard base64 alphabet, in index order. -/
def b64Alphabet : List Char :=
  ['A', 'B', 'C', 'D', 'E', 'F', 'G', 'H', 'I', 'J', 'K', 'L', 'M',
   'N', 'O', 'P', 'Q', 'R', 'S', 'T', 'U', 'V', 'W', 'X', 'Y', 'Z',
   'a', 'b', 'c', 'd', 'e', 'f', 'g', 'h', 'i', 'j', 'k', 'l', 'm',
   'n', 'o', 'p', 'q', 'r', 's', 't', 'u', 'v', 'w', 'x', 'y', 'z',
   '0', '1', '2', '3', '4', '5', '6', '7', '8', '9', '+', '/']

/-- The alphabet character of a sextet value. -/
def encodeSextet (n : Nat) : Char := b64Alphabet.getD n 'A'

/-- Index of a character in a character list, if present. -/
def charIndex (c : Char) : List Char → Option Nat
  | [] => none
  | d :: ds => if d = c then some 0 else (charIndex c ds).map (· + 1)

/-- The sextet value of an alphabet character (`none` for characters outside
the alphabet, such as the padding character). -/
def decodeSextet (c : Char) : Option Nat := charIndex c b64Alphabet

/-- Base64-encode a byte list: each 3-byte group becomes 4 alphabet
characters; a trailing 1- or 2-byte group is padded with `=`. -/
def b64EncodeBytes : List Nat → List Char
  | [] => []
  | [a] =>
      [encodeSextet (a / 4), encodeSextet (a % 4 * 16), '=', '=']
  | [a, b] =>
      [encodeSextet (a / 4), encodeSextet (a % 4 * 16 + b / 16),
       encodeSextet (b % 16 * 4), '=']
  | a :: b :: c :: rest =>
      encodeSextet (a / 4) :: encodeSextet (a % 4 * 16 + b / 16) ::
      encodeSextet (b % 16 * 4 + c / 64) :: encodeSextet (c % 64) ::
      b64EncodeBytes rest

/-- CPython `binascii.a2b_base64` in its default non-strict mode, which is
what `base64.b64decode(s)` (no `validate`) applies to the payload: a
character outside the alphabet and distinct from `=` is discarded; a `=`
ends the stream successfully once the current 4-character group holds at
least two data characters and enough pads have accumulated (two pads after
two data characters, one pad after three); input ending with a partly
filled group raises `binascii.Error`. `quad_pos` counts the data characters
of the current group, `leftchar` holds their leftover bits, and `pads`
counts the pad characters seen since the last data character. -/
def a2b_base64 : List Char → Nat → Nat → Nat → Option (List Nat)
  | [], 0, _, _ => some []
  | [], _ + 1, _, _ => none
  | c :: cs, quad_pos, leftchar, pads =>
    if c = '=' then
      if 2 ≤ quad_pos ∧ 4 ≤ quad_pos + (pads + 1) then some []
      else a2b_base64 cs quad_pos leftchar (pads + 1)
    else
      match decodeSextet c with
      | none => a2b_base64 cs quad_pos leftchar pads
      | some v =>
        match quad_pos with
        | 0 => a2b_base64 cs 1 v 0
        | 1 => (a2b_base64 cs 2 (v % 16) 0).map
            (fun rest => (leftchar * 4 + v / 16) :: rest)
        | 2 => (a2b_base64 cs 3 (v % 4) 0).map
            (fun rest => (leftchar * 16 + v / 4) :: rest)
        | _ => (a2b_base64 cs 0 0 0).map
            (fun rest => (leftchar * 64 + v) :: rest)

/-- Base64 encoding as a `String`, as the handler ships it
(`base64.b64encode(audio_data).decode("utf-8")`). -/
def b64encode (bs : List Nat) : String := ⟨b64EncodeBytes bs⟩

/-- Base64 decoding of a `String`, as the client applies it
(`base64.b64decode(audio_base64)`, i.e. non-strict `binascii.a2b_base64`
started on an empty group). -/
def b64decode (s : String) : Option (List Nat) := a2b_base64 s.data 0 0 0

/-- Decoding the alphabet character of a sextet recovers the sextet. -/
theorem decodeSextet_encodeSextet : ∀ s : Nat, s < 64 →
    decodeSextet (encodeSextet s) = some s := by decide

/-- Alphabet characters are never the padding character. -/
theorem encodeSextet_ne_pad : ∀ s : Nat, s < 64 → encodeSextet s ≠ '=' := by decide

/-- The base64 decoder inverts the encoder on every byte list. -/
theorem a2b_base64_b64EncodeBytes (bs : List Nat) (h : ∀ b ∈ bs, b < 256) :
    a2b_base64 (b64EncodeBytes bs) 0 0 0 = some bs := by
  have main : ∀ N (bs : List Nat), bs.length ≤ N → (∀ b ∈ bs, b < 256) →
      a2b_base64 (b64EncodeBytes bs) 0 0 0 = some bs := by
    intro N
    induction N with
    | zero =>
        intro bs hlen _
        rcases bs with _ | ⟨a, tl⟩
        · rfl
        · simp at hlen
    | succ N ih =>
        intro bs hlen hb
        rcases bs with _ | ⟨a, _ | ⟨b, _ | ⟨c, rest⟩⟩⟩
        · rfl
        · have ha : a < 256 := hb a (by simp)
          have hne1 : encodeSextet (a / 4) ≠ '=' :=
            encodeSextet_ne_pad (a / 4) (by omega)
          have hne2 : encodeSextet (a % 4 * 16) ≠ '=' :=
            encodeSextet_ne_pad (a % 4 * 16) (by omega)
          have d1 := decodeSextet_encodeSextet (a / 4) (by omega)
          have d2 := decodeSextet_encodeSextet (a % 4 * 16) (by omega)
          simp [b64EncodeBytes, a2b_base64, hne1, hne2, d1, d2]
          all_goals omega
        · have ha : a < 256 := hb a (by simp)
          have hbb : b < 256 := hb b (by simp)
          have hne1 : encodeSextet (a / 4) ≠ '=' :=
            encodeSextet_ne_pad (a / 4) (by omega)
          have hne2 : encodeSextet (a % 4 * 16 + b / 16) ≠ '=' :=
            encodeSextet_ne_pad (a % 4 * 16 + b / 16) (by omega)
          have hne3 : encodeSextet (b % 16 * 4) ≠ '=' :=
            encodeSextet_ne_pad (b % 16 * 4) (by omega)
          have d1 := decodeSextet_encodeSextet (a / 4) (by omega)
          have d2 := decodeSextet_encodeSextet (a % 4 * 16 + b / 16) (by omega)
          have d3 := decodeSextet_encodeSextet (b % 16 * 4) (by omega)
          simp [b64EncodeBytes, a2b_base64, hne1, hne2, hne3, d1, d2, d3]
          all_goals omega
        · have ha : a < 256 := hb a (by simp)
          have hbb : b < 256 := hb b (by simp)
          have hc : c < 256 := hb c (by simp)
          have hne1 : encodeSextet (a / 4) ≠ '=' :=
            encodeSextet_ne_pad (a / 4) (by omega)
          have hne2 : encodeSextet (a % 4 * 16 + b / 16) ≠ '=' :=
            encodeSextet_ne_pad (a % 4 * 16 + b / 16) (by omega)
          have hne3 : encodeSextet (b % 16 * 4 + c / 64) ≠ '=' :=
            encodeSextet_ne_pad (b % 16 * 4 + c / 64) (by omega)
          have hne4 : encodeSextet (c % 64) ≠ '=' :=
            encodeSextet_ne_pad (c % 64) (by omega)
          have d1 := decodeSextet_encodeSextet (a / 4) (by omega)
          have d2 := decodeSextet_encodeSextet (a % 4 * 16 + b / 16) (by omega)
          have d3 := decodeSextet_encodeSextet (b % 16 * 4 + c / 64) (by omega)
          have d4 := decodeSextet_encodeSextet (c % 64) (by omega)
          have hrest : a2b_base64 (b64EncodeBytes rest) 0 0 0 = some rest := by
            apply ih
            · simp at hlen; omega
            · intro x hx; exact hb x (by simp [hx])
          simp [b64EncodeBytes, a2b_base64, hne1, hne2, hne3, hne4,
            d1, d2, d3, d4, hrest]
          all_goals omega
  exact main bs.length bs le_rfl h

/-- String-level round trip: `b64decode` inverts `b64encode`. -/
theorem b64decode_b64encode (bs : List Nat) (h : ∀ b ∈ bs, b < 256) :
    b64decode (b64encode bs) = some bs :=
  a2b_base64_b64EncodeBytes bs h

/-- Encoding a nonempty byte list never yields the empty character list
(the encoder emits at least one 4-character group). -/
theorem b64EncodeBytes_ne_nil (bs : List Nat) (h : bs ≠ []) :
    b64EncodeBytes bs ≠ [] := by
  rcases bs with _ | ⟨a, _ | ⟨b, _ | ⟨c, rest⟩⟩⟩ <;> simp [b64EncodeBytes] at h ⊢

/-! ## Client: `HeartMuLaClient` (`src/runpod/client.py`)

The body of a `/status/{job_id}` response: `status.get("status")`,
`status.get("output", {})` and `status.get("error", ...)` are dictionary
lookups with optional keys, modelled as `Option` fields. The `output` value is
itself a dict in which the handler may have placed an `error` key and an
`audio_base64` key. -/

/-- The `output` object of a poll response / the dict `save_audio` receives:
`result.get("audio_base64")` and the `"error" in output` membership test are
the only lookups the client performs on it. -/
structure RespOutput where
  error : Option String := none
  audio_base64 : Option String := none
deriving DecidableEq, Repr

/-- One `/status/{job_id}` JSON body as the polling loop reads it. -/
structure StatusResponse where
  status : Option String := none
  output : Option RespOutput := none
  error : Option String := none
deriving DecidableEq, Repr

/-- The outcome of `HeartMuLaClient.generate`'s polling phase. Each
constructor records the number of status requests issued before returning
or raising. `genError` is the `RuntimeError("Generation error: ...")` raise,
`jobFailed` the `RuntimeError("Job failed: ...")` raise, `unknownStatus` the
`RuntimeError("Unknown status: ...")` raise, and `timedOut` the final
`TimeoutError` raise, carrying the elapsed time at the raise. `intervalZero`
marks the nonterminating configuration `poll_interval = 0`, which no claim
exercises. -/
inductive PollResult where
  | ok (output : RespOutput) (polls : Nat)
  | genError (e : String) (polls : Nat)
  | jobFailed (e : String) (polls : Nat)
  | unknownStatus (s : Option String) (polls : Nat)
  | timedOut (elapsed : Nat) (polls : Nat)
  | intervalZero
deriving DecidableEq, Repr

/-- The `while time.time() - start_time < timeout` polling loop of
`HeartMuLaClient.generate`. `resps n` is the body of the `n`-th status
request; `t` is the elapsed wall-clock time, which advances only by
`time.sleep(poll_interval)`, so each status request itself takes no model
time. -/
def pollLoop (timeout p : Nat) (resps : Nat → StatusResponse) (n t : Nat) :
    PollResult :=
  if ht : t < timeout then
    let resp := resps n
    if resp.status = some "COMPLETED" then
      match (resp.output.getD {}).error with
      | some e => .genError e (n + 1)
      | none => .ok (resp.output.getD {}) (n + 1)
    else if resp.status = some "FAILED" then
      .jobFailed (resp.error.getD "Unknown error") (n + 1)
    else if resp.status = some "IN_QUEUE" ∨ resp.status = some "IN_PROGRESS" then
      if hp : 0 < p then pollLoop timeout p resps (n + 1) (t + p)
      else .intervalZero
    else
      .unknownStatus resp.status (n + 1)
  else
    .timedOut t n
termination_by timeout - t
decreasing_by omega

/-- `HeartMuLaClient.generate` after a successful submission: the polling
loop started at elapsed time 0 with the first status request. -/
def generate (timeout p : Nat) (resps : Nat → StatusResponse) : PollResult :=
  pollLoop timeout p resps 0 0

/-- The outcome of `HeartMuLaClient.generate_sync`. -/
inductive SyncResult where
  | ok (output : RespOutput)
  | genError (e : String)
  | unexpected
deriving DecidableEq, Repr

/-- `HeartMuLaClient.generate_sync`'s classification of the single blocking
`/runsync` response body. -/
def generate_sync (resp : StatusResponse) : SyncResult :=
  if resp.status = some "COMPLETED" then
    match (resp.output.getD {}).error with
    | some e => .genError e
    | none => .ok (resp.output.getD {})
  else
    .unexpected

/-- The outcome of `HeartMuLaClient.save_audio`: `noAudio` is the
`ValueError("No audio data in result")` raise, `decodeFailed` a
`binascii.Error` escaping from `base64.b64decode`, `writeFailed` an OS error
escaping from the `f.write` call. -/
inductive SaveOutcome where
  | saved
  | noAudio
  | decodeFailed
  | writeFailed
deriving DecidableEq, Repr

/-- `HeartMuLaClient.save_audio`. `dest` is the destination file's content
before the call (`none` when no file exists there). The decode precedes the
`open(output_path, "wb")`, and the open truncates before the single write.
`writeFail` is the write oracle: `none` means the write completes, `some k`
means the OS fails the write after `k` bytes have reached the file. -/
def save_audio (result : RespOutput) (dest : Option (List Nat))
    (writeFail : Option Nat) : SaveOutcome × Option (List Nat) :=
  match result.audio_base64 with
  | none => (.noAudio, dest)
  | some s =>
    if s = "" then (.noAudio, dest)
    else
      match b64decode s with
      | none => (.decodeFailed, dest)
      | some audio_data =>
        match writeFail with
        | none => (.saved, some audio_data)
        | some k => (.writeFailed, some (audio_data.take k))

/-! ## Worker: RunPod serverless handler (`src/runpod/handler.py`)

The job's `input` dict, with every key optional; Python floats are modelled
as rationals (the handler never computes on them, it only forwards them to
the pipeline). -/

/-- The `job["input"]` dict as the handler reads it with `.get` calls. -/
structure JobInput where
  lyrics : Option String := none
  tags : Option String := none
  max_audio_length_ms : Option Int := none
  temperature : Option ℚ := none
  topk : Option Int := none
  cfg_scale : Option ℚ := none
deriving DecidableEq, Repr

/-- Python truthiness test `if not lyrics:` on `job_input.get("lyrics")`:
true when the key is absent (`None`) or the string is empty. -/
def lyricsFalsy : Option String → Bool
  | none => true
  | some s => s == ""

/-- The loaded `HeartMuLaGenPipeline` singleton held in the global `MODEL`.
Its internals are an external collaborator; only its identity matters here. -/
inductive Model where
  | init
deriving DecidableEq, Repr

/-- `load_model`: returns the global `MODEL` if already set, otherwise
constructs it once and stores it. Result: the pipeline to use, the new value
of the global, and the number of initializations this call performed. -/
def load_model : Option Model → Model × Option Model × Nat
  | some m => (m, some m, 0)
  | none => (Model.init, some Model.init, 1)

/-- The dict `generate_music` returns on success. -/
structure GenResult where
  audio_base64 : String
  duration_ms : Int
  sample_rate : Int
  format : String
  size_bytes : Nat
deriving DecidableEq, Repr

/-- `os.path.exists` check followed by `os.remove` in the `finally` block of
`generate_music`. -/
def cleanupTemp (tempOnDisk : Bool) : Bool := if tempOnDisk then false else tempOnDisk

/-- `generate_music`: loads the model, creates a temporary output file,
invokes the pipeline under `try`, reads back and base64-encodes the written
bytes, and removes the temporary file in `finally`. `gen` is the pipeline
oracle: `.ok bytes` means the pipeline call returns having written `bytes`
to the temp file, `.error e` means it raises with message `e`. Result:
the return value or escaping exception, the global `MODEL` afterwards, the
number of model initializations performed, and whether the temporary file is
still on disk after the routine exits. -/
def generate_music (lyrics tags : String) (max_audio_length_ms : Int)
    (temperature : ℚ) (topk : Int) (cfg_scale : ℚ)
    (st : Option Model) (gen : Except String (List Nat)) :
    Except String GenResult × Option Model × Nat × Bool :=
  let lm := load_model st
  let tempOnDisk := true
  match gen with
  | .error e => (.error e, lm.2.1, lm.2.2, cleanupTemp tempOnDisk)
  | .ok audio_data =>
      (.ok { audio_base64 := b64encode audio_data,
             duration_ms := max_audio_length_ms,
             sample_rate := 48000,
             format := "mp3",
             size_bytes := audio_data.length },
       lm.2.1, lm.2.2, cleanupTemp tempOnDisk)

/-- The handler's return value: either the `GenResult` dict or an
`{"error": ..., "traceback": ...}` dict (validation errors carry no
traceback; the `except Exception` path formats one, modelled here by the
exception message). -/
inductive HandlerOut where
  | result (r : GenResult)
  | errorOut (msg : String) (traceback : Option String)
deriving DecidableEq, Repr

/-- Everything observable about one `handler` invocation: the returned dict,
the global `MODEL` afterwards, how many model initializations the call
performed, whether `generate_music` was invoked, and whether a temporary
file remains on disk. -/
structure HandlerEffects where
  out : HandlerOut
  modelState : Option Model
  modelInitCount : Nat
  generateInvoked : Bool
  tempLeft : Bool
deriving DecidableEq, Repr

/-- The RunPod serverless `handler`: validates `lyrics` and the
`max_audio_length_ms` bounds, then calls `generate_music`; the surrounding
`try`/`except Exception` converts any escaping exception into an error
dict with a traceback. -/
def handler (job : Option JobInput) (st : Option Model)
    (gen : Except String (List Nat)) : HandlerEffects :=
  let job_input := job.getD {}
  let lyrics := job_input.lyrics
  if lyricsFalsy lyrics then
    ⟨.errorOut "Missing required field: 'lyrics'" none, st, 0, false, false⟩
  else
    let tags := job_input.tags.getD "pop,upbeat"
    let max_audio_length_ms := job_input.max_audio_length_ms.getD 120000
    let temperature := job_input.temperature.getD 1
    let topk := job_input.topk.getD 50
    let cfg_scale := job_input.cfg_scale.getD (3 / 2)
    if max_audio_length_ms > 240000 then
      ⟨.errorOut "max_audio_length_ms cannot exceed 240000 (4 minutes)" none,
       st, 0, false, false⟩
    else if max_audio_length_ms < 10000 then
      ⟨.errorOut "max_audio_length_ms must be at least 10000 (10 seconds)" none,
       st, 0, false, false⟩
    else
      match generate_music (lyrics.getD "") tags max_audio_length_ms
          temperature topk cfg_scale st gen with
      | (.ok r, st', inits, tl) => ⟨.result r, st', inits, true, tl⟩
      | (.error e, st', inits, tl) => ⟨.errorOut e (some e), st', inits, true, tl⟩

/-! ## Behavior of the polling loop -/

/-- A non-terminal poll (`IN_QUEUE` or `IN_PROGRESS`) sleeps one interval and
polls again. -/
theorem pollLoop_nonterminal_step (timeout p : Nat) (resps : Nat → StatusResponse)
    (n t : Nat) (hp : 0 < p) (ht : t < timeout)
    (h : (resps n).status = some "IN_QUEUE" ∨ (resps n).status = some "IN_PROGRESS") :
    pollLoop timeout p resps n t = pollLoop timeout p resps (n + 1) (t + p) := by
  rw [pollLoop]
  rcases h with h | h <;> simp [ht, h, hp]

/-- A `COMPLETED` poll whose output carries an `error` field raises the
generation error immediately. -/
theorem pollLoop_completed_genError (timeout p : Nat) (resps : Nat → StatusResponse)
    (n t : Nat) (e : String) (ht : t < timeout)
    (hs : (resps n).status = some "COMPLETED")
    (he : ((resps n).output.getD {}).error = some e) :
    pollLoop timeout p resps n t = .genError e (n + 1) := by
  rw [pollLoop]
  simp [ht, hs, he]

/-- A `COMPLETED` poll whose output carries no `error` field returns that
output. -/
theorem pollLoop_completed_ok (timeout p : Nat) (resps : Nat → StatusResponse)
    (n t : Nat) (ht : t < timeout)
    (hs : (resps n).status = some "COMPLETED")
    (he : ((resps n).output.getD {}).error = none) :
    pollLoop timeout p resps n t = .ok ((resps n).output.getD {}) (n + 1) := by
  rw [pollLoop]
  simp [ht, hs, he]

/-- When the loop's elapsed-time budget is spent, it raises the timeout. -/
theorem pollLoop_budget_spent (timeout p : Nat) (resps : Nat → StatusResponse)
    (n t : Nat) (ht : ¬ t < timeout) :
    pollLoop timeout p resps n t = .timedOut t n := by
  rw [pollLoop]
  simp [ht]

/-- When every poll reports a non-terminal status, the loop ends in
`timedOut` with elapsed time in `[timeout, timeout + p)`. -/
theorem pollLoop_no_terminal_timesOut (timeout p : Nat)
    (resps : Nat → StatusResponse) (hp : 0 < p)
    (hnt : ∀ n, (resps n).status = some "IN_QUEUE" ∨
      (resps n).status = some "IN_PROGRESS") :
    ∀ d t n, timeout - t ≤ d → t < timeout + p →
      ∃ tEnd nEnd, pollLoop timeout p resps n t = .timedOut tEnd nEnd ∧
        timeout ≤ tEnd ∧ tEnd < timeout + p := by
  intro d
  induction d with
  | zero =>
      intro t n hd hlt
      exact ⟨t, n, pollLoop_budget_spent timeout p resps n t (by omega), by omega, hlt⟩
  | succ d ih =>
      intro t n hd hlt
      by_cases ht : t < timeout
      · rw [pollLoop_nonterminal_step timeout p resps n t hp ht (hnt n)]
        exact ih (t + p) (n + 1) (by omega) (by omega)
      · exact ⟨t, n, pollLoop_budget_spent timeout p resps n t ht, by omega, hlt⟩

/-- C2 (counterexample): a job whose polls literally report the statuses
`QUEUED, QUEUED, RUNNING, COMPLETED` does not terminate with the COMPLETED
output: the very first poll's status `QUEUED` is not one of the statuses the
loop recognizes (`COMPLETED`, `FAILED`, `IN_QUEUE`, `IN_PROGRESS`), so the
loop raises `RuntimeError("Unknown status: QUEUED")` after a single status
request. -/
theorem C2_queued_status_is_unknown :
    generate 300 5
      (fun n =>
        if n = 0 ∨ n = 1 then { status := some "QUEUED" }
        else if n = 2 then { status := some "RUNNING" }
        else { status := some "COMPLETED",
               output := some { audio_base64 := some "AQID" } }) =
      .unknownStatus (some "QUEUED") 1 := by
  rw [generate, pollLoop]
  simp

/-- C2 (amended): for a job whose successive polls report the wire statuses
`IN_QUEUE, IN_QUEUE, IN_PROGRESS, COMPLETED` (the remote queue's encodings of
queued and running), with the fourth response's output carrying no error and
the timeout not yet spent, the polling loop terminates returning the
COMPLETED response's output, and after observing the terminal status it
issues no further status requests: exactly 4 are issued. -/
theorem C2_poll_sequence (timeout p : Nat) (resps : Nat → StatusResponse)
    (out : RespOutput) (hp : 0 < p) (htm : 3 * p < timeout)
    (h0 : (resps 0).status = some "IN_QUEUE")
    (h1 : (resps 1).status = some "IN_QUEUE")
    (h2 : (resps 2).status = some "IN_PROGRESS")
    (h3 : resps 3 = { status := some "COMPLETED", output := some out })
    (hout : out.error = none) :
    generate timeout p resps = .ok out 4 := by
  have e0 := pollLoop_nonterminal_step timeout p resps 0 0 hp (by omega) (Or.inl h0)
  have e1 := pollLoop_nonterminal_step timeout p resps 1 (0 + p) hp (by omega) (Or.inl h1)
  have e2 := pollLoop_nonterminal_step timeout p resps 2 (0 + p + p) hp (by omega)
    (Or.inr h2)
  have e3 := pollLoop_completed_ok timeout p resps 3 (0 + p + p + p)
    (by omega) (by simp [h3]) (by simp [h3, hout])
  rw [generate, e0, e1, e2, e3, h3]
  rfl

/-- Witness for C2 (amended) at a concrete response sequence. -/
theorem C2_poll_sequence_witness :
    generate 300 5
      (fun n =>
        if n = 0 ∨ n = 1 then { status := some "IN_QUEUE" }
        else if n = 2 then { status := some "IN_PROGRESS" }
        else { status := some "COMPLETED",
               output := some { audio_base64 := some "AQID" } }) =
      .ok { audio_base64 := some "AQID" } 4 :=
  C2_poll_sequence 300 5 _ { audio_base64 := some "AQID" }
    (by norm_num) (by norm_num) (by norm_num) (by norm_num) (by norm_num)
    (by norm_num) rfl

/-- C3: every poll response with status `COMPLETED` whose output object
contains an `error` field makes the asynchronous polling loop raise the
generation error (rather than return the output), and the synchronous
variant classifies the same response the same way. -/
theorem C3_completed_error_classified :
    (∀ (timeout p n t : Nat) (resps : Nat → StatusResponse) (e : String),
      t < timeout →
      (resps n).status = some "COMPLETED" →
      ((resps n).output.getD {}).error = some e →
      pollLoop timeout p resps n t = .genError e (n + 1)) ∧
    (∀ (resp : StatusResponse) (e : String),
      resp.status = some "COMPLETED" →
      (resp.output.getD {}).error = some e →
      generate_sync resp = .genError e) := by
  constructor
  · intro timeout p n t resps e ht hs he
    exact pollLoop_completed_genError timeout p resps n t e ht hs he
  · intro resp e hs he
    rw [generate_sync]
    simp [hs, he]

/-- Witness for C3 at a concrete COMPLETED-with-error response. -/
theorem C3_witness :
    pollLoop 300 5
      (fun _ => { status := some "COMPLETED", output := some { error := some "boom" } })
      0 0 = .genError "boom" 1 ∧
    generate_sync { status := some "COMPLETED", output := some { error := some "boom" } } =
      .genError "boom" :=
  ⟨C3_completed_error_classified.1 300 5 0 0 _ "boom" (by norm_num) rfl rfl,
   C3_completed_error_classified.2 _ "boom" rfl rfl⟩

/-- C4: polling a job that never reports a terminal status raises the
timeout error, and the elapsed wall-clock time at the raise is at least the
configured timeout and strictly less than the timeout plus one poll
interval. -/
theorem C4_never_terminal_timesOut (timeout p : Nat)
    (resps : Nat → StatusResponse) (hp : 0 < p)
    (hnt : ∀ n, (resps n).status = some "IN_QUEUE" ∨
      (resps n).status = some "IN_PROGRESS") :
    ∃ tEnd nEnd, generate timeout p resps = .timedOut tEnd nEnd ∧
      timeout ≤ tEnd ∧ tEnd < timeout + p := by
  simp only [generate]
  exact pollLoop_no_terminal_timesOut timeout p resps hp hnt timeout 0 0
    (by omega) (by omega)

/-- Witness for C4 at a concrete always-queued job (timeout 7, interval 5). -/
theorem C4_witness :
    ∃ tEnd nEnd, generate 7 5 (fun _ => { status := some "IN_QUEUE" }) =
      .timedOut tEnd nEnd ∧ 7 ≤ tEnd ∧ tEnd < 7 + 5 :=
  C4_never_terminal_timesOut 7 5 _ (by norm_num) (fun _ => Or.inl rfl)

/-! ## Behavior of the handler -/

/-- The conditions the handler's validation actually tests before calling
`generate_music`: a truthy `lyrics` and the `max_audio_length_ms` bounds
(spec-side characterization used to compare the spec's validation claim
with the code). -/
def requestAccepted (job : Option JobInput) : Prop :=
  lyricsFalsy (job.getD {}).lyrics = false ∧
  (job.getD {}).max_audio_length_ms.getD 120000 ≤ 240000 ∧
  10000 ≤ (job.getD {}).max_audio_length_ms.getD 120000

instance (job : Option JobInput) : Decidable (requestAccepted job) := by
  unfold requestAccepted; infer_instance

/-- A falsy `lyrics` value short-circuits the handler into the missing-field
error, before any other work. -/
theorem handler_lyrics_rejected (job : Option JobInput) (st : Option Model)
    (gen : Except String (List Nat))
    (h : lyricsFalsy (job.getD {}).lyrics = true) :
    handler job st gen =
      ⟨.errorOut "Missing required field: 'lyrics'" none, st, 0, false, false⟩ := by
  simp only [handler]
  rw [if_pos h]

/-- An over-limit `max_audio_length_ms` yields the upper-bound error. -/
theorem handler_maxLen_high_rejected (job : Option JobInput) (st : Option Model)
    (gen : Except String (List Nat))
    (hA : lyricsFalsy (job.getD {}).lyrics = false)
    (h : (job.getD {}).max_audio_length_ms.getD 120000 > 240000) :
    handler job st gen =
      ⟨.errorOut "max_audio_length_ms cannot exceed 240000 (4 minutes)" none,
       st, 0, false, false⟩ := by
  simp only [handler]
  rw [if_neg (by simp [hA]), if_pos h]

/-- An under-limit `max_audio_length_ms` yields the lower-bound error. -/
theorem handler_maxLen_low_rejected (job : Option JobInput) (st : Option Model)
    (gen : Except String (List Nat))
    (hA : lyricsFalsy (job.getD {}).lyrics = false)
    (hHigh : ¬ (job.getD {}).max_audio_length_ms.getD 120000 > 240000)
    (h : (job.getD {}).max_audio_length_ms.getD 120000 < 10000) :
    handler job st gen =
      ⟨.errorOut "max_audio_length_ms must be at least 10000 (10 seconds)" none,
       st, 0, false, false⟩ := by
  simp only [handler]
  rw [if_neg (by simp [hA]), if_neg hHigh, if_pos h]

/-- A request passing all the handler's checks reaches `generate_music`,
whose outcome determines the returned dict; an escaping exception is
converted into an error dict carrying a traceback. -/
theorem handler_accepted_eq (job : Option JobInput) (st : Option Model)
    (gen : Except String (List Nat)) (h : requestAccepted job) :
    handler job st gen =
      match generate_music ((job.getD {}).lyrics.getD "")
          ((job.getD {}).tags.getD "pop,upbeat")
          ((job.getD {}).max_audio_length_ms.getD 120000)
          ((job.getD {}).temperature.getD 1)
          ((job.getD {}).topk.getD 50)
          ((job.getD {}).cfg_scale.getD (3 / 2)) st gen with
      | (.ok r, st', inits, tl) => ⟨.result r, st', inits, true, tl⟩
      | (.error e, st', inits, tl) => ⟨.errorOut e (some e), st', inits, true, tl⟩ := by
  obtain ⟨hA, hB, hC⟩ := h
  simp only [handler]
  rw [if_neg (by simp [hA]), if_neg (by omega), if_neg (by omega)]

/-- C1 (counterexample): a job violating the spec's `temperature > 0` bound
(temperature 0) is not rejected: validation accepts it and the generation
capability is invoked, returning a successful result. -/
theorem C1_unchecked_temperature_invoked :
    (handler (some { lyrics := some "la", temperature := some 0 }) none
      (.ok [1, 2, 3])).generateInvoked = true ∧
    (handler (some { lyrics := some "la", temperature := some 0 }) none
      (.ok [1, 2, 3])).out =
      .result { audio_base64 := "AQID", duration_ms := 120000,
                sample_rate := 48000, format := "mp3", size_bytes := 3 } := by
  constructor <;> rfl

/-- Generation is invoked exactly when the request passes the handler's
`lyrics` and `max_audio_length_ms` checks. -/
theorem handler_invoked_iff (job : Option JobInput) (st : Option Model)
    (gen : Except String (List Nat)) :
    (handler job st gen).generateInvoked = true ↔ requestAccepted job := by
  by_cases hA : lyricsFalsy (job.getD {}).lyrics
  · rw [handler_lyrics_rejected job st gen hA]
    simp [requestAccepted, hA]
  · replace hA : lyricsFalsy (job.getD {}).lyrics = false := by
      simpa using hA
    by_cases hB : (job.getD {}).max_audio_length_ms.getD 120000 > 240000
    · rw [handler_maxLen_high_rejected job st gen hA hB]
      simp only [requestAccepted, hA]
      constructor
      · intro hfalse; cases hfalse
      · intro hacc; omega
    · by_cases hC : (job.getD {}).max_audio_length_ms.getD 120000 < 10000
      · rw [handler_maxLen_low_rejected job st gen hA hB hC]
        simp only [requestAccepted, hA]
        constructor
        · intro hfalse; cases hfalse
        · intro hacc; omega
      · have hacc : requestAccepted job := ⟨hA, by omega, by omega⟩
        rw [handler_accepted_eq job st gen hacc]
        cases gen with
        | error e => simp [generate_music, hacc]
        | ok bytes => simp [generate_music, hacc]

/-- C1 (amended): the handler validates exactly a truthy `lyrics` and the
`max_audio_length_ms` bounds [10000, 240000]: generation is invoked iff those
hold, and every rejected input gets a structured validation-error object
(no traceback) with generation never invoked. `temperature`, `topk` and
`cfg_scale` are passed through unvalidated. -/
theorem C1_validation (job : Option JobInput) (st : Option Model)
    (gen : Except String (List Nat)) :
    ((handler job st gen).generateInvoked = true ↔ requestAccepted job) ∧
    (¬ requestAccepted job →
      (handler job st gen).generateInvoked = false ∧
      ∃ m, (handler job st gen).out = .errorOut m none) := by
  have step := handler_invoked_iff job st gen
  refine ⟨step, fun hreject => ?_⟩
  have hfalse : (handler job st gen).generateInvoked = false := by
    rcases Bool.eq_false_or_eq_true (handler job st gen).generateInvoked with h | h
    · exact absurd (step.1 h) hreject
    · exact h
  refine ⟨hfalse, ?_⟩
  by_cases hA : lyricsFalsy (job.getD {}).lyrics
  · exact ⟨_, by rw [handler_lyrics_rejected job st gen hA]⟩
  · replace hA : lyricsFalsy (job.getD {}).lyrics = false := by simpa using hA
    by_cases hB : (job.getD {}).max_audio_length_ms.getD 120000 > 240000
    · exact ⟨_, by rw [handler_maxLen_high_rejected job st gen hA hB]⟩
    · by_cases hC : (job.getD {}).max_audio_length_ms.getD 120000 < 10000
      · exact ⟨_, by rw [handler_maxLen_low_rejected job st gen hA hB hC]⟩
      · exact absurd ⟨hA, by omega, by omega⟩ hreject

/-- Witness for C1 (amended) at a concrete under-limit request. -/
theorem C1_witness :
    (handler (some { lyrics := some "x", max_audio_length_ms := some 5000 })
      none (.ok [])).generateInvoked = false ∧
    ∃ m, (handler (some { lyrics := some "x", max_audio_length_ms := some 5000 })
      none (.ok [])).out = .errorOut m none :=
  (C1_validation (some { lyrics := some "x", max_audio_length_ms := some 5000 })
    none (.ok [])).2 (by decide)

/-- C5: the handler always returns a dict — either the result shape or an
object with an error key — and any exception escaping the generation routine
is caught and converted into an error dict carrying a traceback. -/
theorem C5_no_exception_escapes (job : Option JobInput) (st : Option Model)
    (gen : Except String (List Nat)) :
    ((∃ r, (handler job st gen).out = .result r) ∨
     (∃ m tb, (handler job st gen).out = .errorOut m tb)) ∧
    (∀ e, gen = .error e → (handler job st gen).generateInvoked = true →
      (handler job st gen).out = .errorOut e (some e)) := by
  constructor
  · by_cases hA : lyricsFalsy (job.getD {}).lyrics
    · exact Or.inr ⟨_, _, by rw [handler_lyrics_rejected job st gen hA]⟩
    · replace hA : lyricsFalsy (job.getD {}).lyrics = false := by simpa using hA
      by_cases hB : (job.getD {}).max_audio_length_ms.getD 120000 > 240000
      · exact Or.inr ⟨_, _, by rw [handler_maxLen_high_rejected job st gen hA hB]⟩
      · by_cases hC : (job.getD {}).max_audio_length_ms.getD 120000 < 10000
        · exact Or.inr ⟨_, _, by rw [handler_maxLen_low_rejected job st gen hA hB hC]⟩
        · have hacc : requestAccepted job := ⟨hA, by omega, by omega⟩
          rw [handler_accepted_eq job st gen hacc]
          cases gen with
          | error e =>
              simp only [generate_music]
              exact Or.inr ⟨_, _, rfl⟩
          | ok bytes =>
              simp only [generate_music]
              exact Or.inl ⟨_, rfl⟩
  · intro e hg hinv
    subst hg
    have hacc : requestAccepted job := (handler_invoked_iff job st _).1 hinv
    rw [handler_accepted_eq job st _ hacc]
    simp [generate_music]

/-- Witness for C5 at a concrete failing generation. -/
theorem C5_witness :
    (handler (some { lyrics := some "x" }) none (.error "boom")).out =
      .errorOut "boom" (some "boom") :=
  (C5_no_exception_escapes (some { lyrics := some "x" }) none (.error "boom")).2
    "boom" rfl (by decide)

/-- C8: a first handler invocation that reaches generation on an empty
model slot initializes the model exactly once and stores it; any later
invocation in the same process — with the model slot now filled — performs
no initialization and leaves the stored model untouched. -/
theorem C8_model_initialized_once (job job2 : Option JobInput)
    (gen gen2 : Except String (List Nat))
    (h : (handler job none gen).generateInvoked = true) :
    (handler job none gen).modelInitCount = 1 ∧
    (handler job none gen).modelState = some Model.init ∧
    (handler job2 (some Model.init) gen2).modelInitCount = 0 ∧
    (handler job2 (some Model.init) gen2).modelState = some Model.init := by
  have hacc : requestAccepted job := (handler_invoked_iff job none gen).1 h
  have first1 : (handler job none gen).modelInitCount = 1 ∧
      (handler job none gen).modelState = some Model.init := by
    rw [handler_accepted_eq job none gen hacc]
    cases gen with
    | error e => simp [generate_music, load_model]
    | ok bytes => simp [generate_music, load_model]
  have second : (handler job2 (some Model.init) gen2).modelInitCount = 0 ∧
      (handler job2 (some Model.init) gen2).modelState = some Model.init := by
    by_cases hA : lyricsFalsy (job2.getD {}).lyrics
    · rw [handler_lyrics_rejected job2 (some Model.init) gen2 hA]
      exact ⟨rfl, rfl⟩
    · replace hA : lyricsFalsy (job2.getD {}).lyrics = false := by simpa using hA
      by_cases hB : (job2.getD {}).max_audio_length_ms.getD 120000 > 240000
      · rw [handler_maxLen_high_rejected job2 (some Model.init) gen2 hA hB]
        exact ⟨rfl, rfl⟩
      · by_cases hC : (job2.getD {}).max_audio_length_ms.getD 120000 < 10000
        · rw [handler_maxLen_low_rejected job2 (some Model.init) gen2 hA hB hC]
          exact ⟨rfl, rfl⟩
        · have hacc2 : requestAccepted job2 := ⟨hA, by omega, by omega⟩
          rw [handler_accepted_eq job2 (some Model.init) gen2 hacc2]
          cases gen2 with
          | error e => simp [generate_music, load_model]
          | ok bytes => simp [generate_music, load_model]
  exact ⟨first1.1, first1.2, second.1, second.2⟩

/-- Witness for C8 at two concrete warm/cold invocations. -/
theorem C8_witness :
    (handler (some { lyrics := some "x" }) none (.ok [])).modelInitCount = 1 ∧
    (handler (some { lyrics := some "x" }) none (.ok [])).modelState =
      some Model.init ∧
    (handler (some { lyrics := some "y" }) (some Model.init)
      (.ok [])).modelInitCount = 0 ∧
    (handler (some { lyrics := some "y" }) (some Model.init)
      (.ok [])).modelState = some Model.init :=
  C8_model_initialized_once (some { lyrics := some "x" })
    (some { lyrics := some "y" }) (.ok []) (.ok []) (by decide)

/-- C9: on every exit path of `generate_music` — pipeline success or
pipeline failure — and hence on every handler path (including validation
rejections, which never create the file), no temporary output file remains
on disk afterwards. -/
theorem C9_temp_file_removed :
    (∀ (lyrics tags : String) (maxLen : Int) (temperature : ℚ) (topk : Int)
      (cfg : ℚ) (st : Option Model) (gen : Except String (List Nat)),
      (generate_music lyrics tags maxLen temperature topk cfg st gen).2.2.2 = false) ∧
    (∀ (job : Option JobInput) (st : Option Model) (gen : Except String (List Nat)),
      (handler job st gen).tempLeft = false) := by
  have gm : ∀ (lyrics tags : String) (maxLen : Int) (temperature : ℚ) (topk : Int)
      (cfg : ℚ) (st : Option Model) (gen : Except String (List Nat)),
      (generate_music lyrics tags maxLen temperature topk cfg st gen).2.2.2 = false := by
    intro lyrics tags maxLen temperature topk cfg st gen
    cases gen <;> rfl
  refine ⟨gm, fun job st gen => ?_⟩
  by_cases hA : lyricsFalsy (job.getD {}).lyrics
  · rw [handler_lyrics_rejected job st gen hA]
  · replace hA : lyricsFalsy (job.getD {}).lyrics = false := by simpa using hA
    by_cases hB : (job.getD {}).max_audio_length_ms.getD 120000 > 240000
    · rw [handler_maxLen_high_rejected job st gen hA hB]
    · by_cases hC : (job.getD {}).max_audio_length_ms.getD 120000 < 10000
      · rw [handler_maxLen_low_rejected job st gen hA hB hC]
      · have hacc : requestAccepted job := ⟨hA, by omega, by omega⟩
        rw [handler_accepted_eq job st gen hacc]
        cases gen <;> rfl

/-- C10: every non-error handler result reports `size_bytes` equal to the
byte length of the base64-decoding of its `audio_base64`, format `"mp3"`,
sample rate 48000, and `duration_ms` equal to the requested (or default)
`max_audio_length_ms` rather than a measured duration. -/
theorem C10_result_shape (job : Option JobInput) (st : Option Model)
    (bytes : List Nat) (hb : ∀ b ∈ bytes, b < 256) (r : GenResult)
    (hr : (handler job st (.ok bytes)).out = .result r) :
    b64decode r.audio_base64 = some bytes ∧
    r.size_bytes = bytes.length ∧
    r.format = "mp3" ∧
    r.sample_rate = 48000 ∧
    r.duration_ms = (job.getD {}).max_audio_length_ms.getD 120000 := by
  by_cases hA : lyricsFalsy (job.getD {}).lyrics
  · rw [handler_lyrics_rejected job st _ hA] at hr
    cases hr
  · replace hA : lyricsFalsy (job.getD {}).lyrics = false := by simpa using hA
    by_cases hB : (job.getD {}).max_audio_length_ms.getD 120000 > 240000
    · rw [handler_maxLen_high_rejected job st _ hA hB] at hr
      cases hr
    · by_cases hC : (job.getD {}).max_audio_length_ms.getD 120000 < 10000
      · rw [handler_maxLen_low_rejected job st _ hA hB hC] at hr
        cases hr
      · have hacc : requestAccepted job := ⟨hA, by omega, by omega⟩
        rw [handler_accepted_eq job st _ hacc] at hr
        simp only [generate_music] at hr
        cases hr
        exact ⟨b64decode_b64encode bytes hb, rfl, rfl, rfl, rfl⟩

/-- Witness for C10 at a concrete successful generation. -/
theorem C10_witness :
    b64decode (GenResult.audio_base64
      { audio_base64 := "AQID", duration_ms := 120000, sample_rate := 48000,
        format := "mp3", size_bytes := 3 }) = some [1, 2, 3] ∧
    GenResult.size_bytes
      { audio_base64 := "AQID", duration_ms := 120000, sample_rate := 48000,
        format := "mp3", size_bytes := 3 } = [1, 2, 3].length ∧
    GenResult.format
      { audio_base64 := "AQID", duration_ms := 120000, sample_rate := 48000,
        format := "mp3", size_bytes := 3 } = "mp3" ∧
    GenResult.sample_rate
      { audio_base64 := "AQID", duration_ms := 120000, sample_rate := 48000,
        format := "mp3", size_bytes := 3 } = 48000 ∧
    GenResult.duration_ms
      { audio_base64 := "AQID", duration_ms := 120000, sample_rate := 48000,
        format := "mp3", size_bytes := 3 } =
      ((some { lyrics := some "x" } : Option JobInput).getD
        {}).max_audio_length_ms.getD 120000 :=
  C10_result_shape (some { lyrics := some "x" }) none [1, 2, 3] (by decide)
    { audio_base64 := "AQID", duration_ms := 120000, sample_rate := 48000,
      format := "mp3", size_bytes := 3 } (by decide)

/-! ## Result materialization (`save_audio`) -/

/-- C6 (counterexample): for the empty byte string, the worker's encoding is
the empty base64 string, which `save_audio` rejects as missing audio data
(`if not audio_base64`), writing nothing — so saving does not reproduce the
original (empty) byte string at the destination. -/
theorem C6_empty_bytes_not_saved :
    b64encode ([] : List Nat) = "" ∧
    save_audio { audio_base64 := some (b64encode ([] : List Nat)) } none none =
      (.noAudio, none) := by
  constructor <;> rfl

/-- C6 (amended): decoding inverts encoding for every byte string; and for
every nonempty byte string, `save_audio` on a result carrying its encoding,
with the write completing, leaves exactly the original bytes at the
destination. (The empty byte string encodes to `""`, which `save_audio`
rejects as missing audio data.) -/
theorem C6_roundtrip_and_save (bs : List Nat) (h : ∀ b ∈ bs, b < 256) :
    b64decode (b64encode bs) = some bs ∧
    (bs ≠ [] → ∀ dest, save_audio { audio_base64 := some (b64encode bs) } dest none =
      (.saved, some bs)) := by
  refine ⟨b64decode_b64encode bs h, fun hne dest => ?_⟩
  have hne2 : b64encode bs ≠ "" := by
    intro hcontra
    exact b64EncodeBytes_ne_nil bs hne (congrArg String.data hcontra)
  simp [save_audio, hne2, b64decode_b64encode bs h]

/-- Witness for C6 (amended) at the concrete bytes `[1, 2, 3]`. -/
theorem C6_witness :
    b64decode (b64encode [1, 2, 3]) = some [1, 2, 3] ∧
    save_audio { audio_base64 := some (b64encode [1, 2, 3]) } none none =
      (.saved, some [1, 2, 3]) :=
  ⟨(C6_roundtrip_and_save [1, 2, 3] (by decide)).1,
   (C6_roundtrip_and_save [1, 2, 3] (by decide)).2 (by decide) none⟩

end HeartMuLa
